import Mathlib

set_option maxHeartbeats 1000000

namespace ScrapeImage

/-!
Shallow embedding of the scraping core of the repository.

The first part embeds `scraping_final.py` (class `AmazonReviewsScraper`):
per-field review extraction (`extract_review_data`), page harvesting, the
pagination loop of `scrape_reviews`, and `go_to_next_page`.

The second part embeds `product_details.py` (class `AmazonRufusScraper`):
`wait_for_login_completion`, `extract_rufus_questions`,
`extract_customer_insights` and `scrape_product_data`.

Browser/DOM interaction is modelled by explicit data: a Selenium
`find_element` call either returns an element (carrying the text or
attribute that the code reads from it), raises `NoSuchElementException`,
or raises some other exception.
-/

/-- Python `s.strip()`: remove leading and trailing whitespace. -/
def pyStrip (s : String) : String :=
  String.mk (((s.data.dropWhile Char.isWhitespace).reverse.dropWhile
    Char.isWhitespace).reverse)

/-- Occurrence test for a character sequence inside another (Python
`sub in s` on the underlying character lists). -/
def seqOccurs (sep : List Char) : List Char → Bool
  | [] => sep.isEmpty
  | c :: rest => sep.isPrefixOf (c :: rest) || seqOccurs sep rest

/-- Python `sub in s` substring test. -/
def pyContains (s sub : String) : Bool :=
  seqOccurs sub.data s.data

/-- Helper for `pySplit`: scan left to right, cutting at each leftmost
occurrence of the (non-empty) separator.  `cur` holds the current chunk
reversed; the fuel is an upper bound on the scan length, consumed one
character per step. -/
def pySplitAux (sep : List Char) : Nat → List Char → List Char → List (List Char)
  | 0, _, cur => [cur.reverse]
  | _ + 1, [], cur => [cur.reverse]
  | f + 1, c :: rest, cur =>
    if sep.isPrefixOf (c :: rest) then
      cur.reverse :: pySplitAux sep f ((c :: rest).drop sep.length) []
    else
      pySplitAux sep f rest (c :: cur)

/-- Python `s.split(sep)` for a non-empty separator: parts between
leftmost non-overlapping occurrences of `sep`. -/
def pySplit (s sep : String) : List String :=
  (pySplitAux sep.data s.data.length s.data []).map String.mk

/-- Helper for `pyWhitespaceSplit`: split on whitespace runs, discarding
empty chunks; `cur` holds the current chunk reversed. -/
def pyWsSplitAux : List Char → List Char → List (List Char)
  | [], cur => if cur = [] then [] else [cur.reverse]
  | c :: rest, cur =>
    if c.isWhitespace then
      if cur = [] then pyWsSplitAux rest []
      else cur.reverse :: pyWsSplitAux rest []
    else
      pyWsSplitAux rest (c :: cur)

/-- Python `s.split()` with no arguments: split on whitespace runs,
discarding empty chunks. -/
def pyWhitespaceSplit (s : String) : List String :=
  (pyWsSplitAux s.data []).map String.mk

/-- Python `s.lower()` (ASCII range, as used by the skip-phrase check). -/
def pyLower (s : String) : String :=
  String.mk (s.data.map Char.toLower)

/-- Outcome of one Selenium `find_element` call, as seen by the caller:
the element's relevant text/attribute, a `NoSuchElementException`, or any
other exception. -/
inductive Lookup where
  | found : String → Lookup
  | noSuch : Lookup
  | err : Lookup
  deriving DecidableEq

/-- One review container (`[data-hook="review"]`), described by what each
per-field `find_element` call inside `extract_review_data` would yield.
`ratingClass` carries the `class` attribute of the star-rating element. -/
structure ReviewElement where
  title : Lookup
  ratingClass : Lookup
  body : Lookup
  author : Lookup
  date : Lookup
  verified : Lookup
  helpful : Lookup
  deriving DecidableEq

/-- The dictionary built by `extract_review_data` (all seven keys are
always present, each with a string value). -/
structure ReviewRecord where
  title : String
  rating : String
  text : String
  author : String
  date : String
  verified_purchase : String
  helpful_votes : String
  deriving DecidableEq

/-- `rating_text.split('a-star-')[1].split()[0] if 'a-star-' in rating_text
else "N/A"` from `extract_review_data`.  `none` models the `IndexError`
raised when `'a-star-'` occurs but no token follows it; that exception is
not a `NoSuchElementException`, so it escapes to the outer handler. -/
def parseRating (ratingText : String) : Option String :=
  if pyContains ratingText "a-star-" then
    match (pySplit ratingText "a-star-").get? 1 with
    | some rest => (pyWhitespaceSplit rest).get? 0
    | none => none
  else
    some "N/A"

/-- A `try: ... .text.strip() except NoSuchElementException: sentinel`
field block of `extract_review_data`.  `none` models a non-`NoSuchElement`
exception escaping the per-field handler. -/
def textField : Lookup → String → Option String
  | Lookup.found v, _ => some (pyStrip v)
  | Lookup.noSuch, s => some s
  | Lookup.err, _ => none

/-- The rating field block of `extract_review_data`. -/
def ratingField : Lookup → Option String
  | Lookup.found c => parseRating c
  | Lookup.noSuch => some "N/A"
  | Lookup.err => none

/-- The verified-purchase field block: a found badge element is truthy, so
the value is "Yes"; `NoSuchElementException` gives "No". -/
def verifiedField : Lookup → Option String
  | Lookup.found _ => some "Yes"
  | Lookup.noSuch => some "No"
  | Lookup.err => none

/-- The helpful-votes field block: sentinel "0" on
`NoSuchElementException`. -/
def helpfulField : Lookup → Option String
  | Lookup.found v => some (pyStrip v)
  | Lookup.noSuch => some "0"
  | Lookup.err => none

/-- `AmazonReviewsScraper.extract_review_data`: builds the seven-key
record; any exception other than a per-field `NoSuchElementException`
reaches the outer `except Exception` handler, which returns `None`. -/
def extract_review_data (el : ReviewElement) : Option ReviewRecord :=
  (textField el.title "N/A").bind fun title =>
  (ratingField el.ratingClass).bind fun rating =>
  (textField el.body "N/A").bind fun text =>
  (textField el.author "N/A").bind fun author =>
  (textField el.date "N/A").bind fun date =>
  (verifiedField el.verified).bind fun vp =>
  (helpfulField el.helpful).bind fun hv =>
  some ⟨title, rating, text, author, date, vp, hv⟩

/-- The harvest loop of `scrape_reviews` over one page's review
containers: records for which extraction returns a dict are appended, a
`None` result (or an exception, caught by `except Exception: continue`)
is skipped. -/
def harvestPage (els : List ReviewElement) : List ReviewRecord :=
  els.filterMap extract_review_data

/-- State of the `li.a-last a` next-page control, as `go_to_next_page`
sees it: present and enabled (click succeeds), present but disabled,
absent (`NoSuchElementException`), or a click that raises some other
exception (which `go_to_next_page` does not catch). -/
inductive NextCtl where
  | enabled : NextCtl
  | disabled : NextCtl
  | absent : NextCtl
  | clickRaises : NextCtl
  deriving DecidableEq

/-- One reviews page of the site: its review containers and the state of
its next-page control. -/
structure Page where
  reviews : List ReviewElement
  next : NextCtl
  deriving DecidableEq

/-- Review containers of the page reached after `i` successful next
clicks; past the end of the site nothing renders, so the
content-presence wait would time out there. -/
def pageAt (site : List Page) (i : Nat) : List ReviewElement :=
  match site.get? i with
  | some p => p.reviews
  | none => []

/-- Next-control state on the page reached after `i` successful clicks. -/
def nextAt (site : List Page) (i : Nat) : NextCtl :=
  match site.get? i with
  | some p => p.next
  | none => NextCtl.absent

/-- How the `scrape_reviews` loop ended: the `for page in range(...)` loop
ran to its cap; the content-presence wait timed out (`break`); the next
control was absent or disabled (`break`); or an exception reached the
outer handler, which still returns the accumulated records. -/
inductive Stop where
  | capped : Stop
  | noReviews : Stop
  | noNext : Stop
  | error : Stop
  deriving DecidableEq

/-- Result of a `scrape_reviews` run: the returned records, how the loop
ended, and how many pages were harvested. -/
structure ScrapeResult where
  records : List ReviewRecord
  stop : Stop
  harvests : Nat
  deriving DecidableEq

/-- The body of `scrape_reviews`'s pagination loop.  `remaining` is the
number of loop iterations the `range(1, max_pages + 1)` bound still
allows (including the current one); `idx` is the current page position;
`acc` the accumulated `reviews_data`; `done` the pages harvested so far.
Each iteration: content-presence wait (timeout on an empty page ends the
run), harvest every container, and — only when this is not the final
permitted page — try the next control. -/
def scrapeAux (site : List Page) : Nat → Nat → List ReviewRecord → Nat → ScrapeResult
  | _, 0, acc, done => ⟨acc, Stop.capped, done⟩
  | idx, r + 1, acc, done =>
    if (pageAt site idx).isEmpty = true then ⟨acc, Stop.noReviews, done⟩
    else
      let acc2 := acc ++ harvestPage (pageAt site idx)
      if r = 0 then ⟨acc2, Stop.capped, done + 1⟩
      else
        match nextAt site idx with
        | NextCtl.enabled => scrapeAux site (idx + 1) r acc2 (done + 1)
        | NextCtl.clickRaises => ⟨acc2, Stop.error, done + 1⟩
        | _ => ⟨acc2, Stop.noNext, done + 1⟩

/-- `AmazonReviewsScraper.scrape_reviews` after a successful navigation:
run the pagination loop for at most `maxPages` pages starting from the
first reviews page with an empty accumulator. -/
def scrape_reviews (site : List Page) (maxPages : Nat) : ScrapeResult :=
  scrapeAux site 0 maxPages [] 0

/-- Concatenated harvests of the `m` consecutive pages starting at
`idx`. -/
def harvestRange (site : List Page) (idx m : Nat) : List ReviewRecord :=
  ((List.range m).map (fun j => harvestPage (pageAt site (idx + j)))).flatten

/-- How a whole `scrape_reviews` call ends at its caller: either the
session-start exception propagates, or a result is returned. -/
inductive RunResult where
  | raised : RunResult
  | returned : ScrapeResult → RunResult
  deriving DecidableEq

/-- `scrape_reviews` including driver startup.  `start_driver` is invoked
before the `try` block and re-raises its exception, so a failed start
propagates to the caller; the second component records whether
`driver.get` (navigation) was ever attempted. -/
def scrape_reviews_full (startOk : Bool) (site : List Page) (maxPages : Nat) :
    RunResult × Bool :=
  if startOk then (RunResult.returned (scrape_reviews site maxPages), true)
  else (RunResult.raised, false)

/-- A fully populated review container whose extraction succeeds. -/
def goodEl : ReviewElement :=
  ⟨Lookup.found "Great product", Lookup.found "a-icon-alt a-star-5",
   Lookup.found "Loved it overall", Lookup.found "Alex",
   Lookup.found "Reviewed in 2024", Lookup.found "badge",
   Lookup.found "3 people found this helpful"⟩

/-- A container whose author lookup raises a non-`NoSuchElement`
exception, so its record evaluates to `None` and is dropped. -/
def oneErrEl : ReviewElement :=
  ⟨Lookup.found "Great product", Lookup.found "a-icon-alt a-star-5",
   Lookup.found "Loved it overall", Lookup.err,
   Lookup.found "Reviewed in 2024", Lookup.found "badge",
   Lookup.found "3 people found this helpful"⟩

/-- A container whose body lookup raises a non-`NoSuchElement`
exception. -/
def badEl : ReviewElement :=
  ⟨Lookup.found "Nice", Lookup.found "a-icon-alt a-star-4",
   Lookup.err, Lookup.found "Sam",
   Lookup.found "Reviewed in 2023", Lookup.noSuch,
   Lookup.noSuch⟩

/-- A five-star review container (scenario A). -/
def elStar5 : ReviewElement :=
  ⟨Lookup.found "Five stars", Lookup.found "a-icon-alt a-star-5",
   Lookup.found "Excellent", Lookup.found "Ana",
   Lookup.found "Reviewed in 2024", Lookup.found "badge",
   Lookup.found "2 people found this helpful"⟩

/-- A four-star review container (scenario A). -/
def elStar4 : ReviewElement :=
  ⟨Lookup.found "Four stars", Lookup.found "a-icon-alt a-star-4",
   Lookup.found "Good", Lookup.found "Ben",
   Lookup.found "Reviewed in 2023", Lookup.noSuch,
   Lookup.noSuch⟩

/-- A review container whose star-rating element is missing
(scenario A). -/
def elNoRating : ReviewElement :=
  ⟨Lookup.found "No stars shown", Lookup.noSuch,
   Lookup.found "Okay", Lookup.found "Cam",
   Lookup.found "Reviewed in 2022", Lookup.noSuch,
   Lookup.noSuch⟩

/-- A container whose star-rating class contains `a-star-` followed by a
non-digit token. -/
def elStarSmall : ReviewElement :=
  ⟨Lookup.found "Odd class", Lookup.found "a-icon-star-mini a-star-small",
   Lookup.found "Odd", Lookup.found "Dee",
   Lookup.found "Reviewed in 2021", Lookup.noSuch,
   Lookup.noSuch⟩

/-- A container whose star-rating class ends in `a-star-` with no token
after it: the parse raises `IndexError` and the record is dropped. -/
def elStarDash : ReviewElement :=
  ⟨Lookup.found "Broken class", Lookup.found "a-icon-alt a-star-",
   Lookup.found "Broken", Lookup.found "Eli",
   Lookup.found "Reviewed in 2020", Lookup.noSuch,
   Lookup.noSuch⟩

/-- A mock site of five pages with ten well-formed reviews each and an
enabled next control everywhere (scenario C). -/
def demoSite5 : List Page :=
  List.replicate 5 ⟨List.replicate 10 goodEl, NextCtl.enabled⟩

/-- `demoSite5` with the second page's next control replaced by one whose
click would raise: if page 2 were clicked under `maxPages = 2`, the run
would end in the error state instead of the cap. -/
def demoSite5Tampered : List Page :=
  ⟨List.replicate 10 goodEl, NextCtl.enabled⟩ ::
  ⟨List.replicate 10 goodEl, NextCtl.clickRaises⟩ ::
  List.replicate 3 ⟨List.replicate 10 goodEl, NextCtl.enabled⟩

/-- A three-page site whose second page has a disabled next control. -/
def exhaustSite : List Page :=
  [⟨[elStar5], NextCtl.enabled⟩, ⟨[elStar4], NextCtl.disabled⟩,
   ⟨[goodEl], NextCtl.enabled⟩]

/-!
Embedding of `product_details.py` (class `AmazonRufusScraper`).
-/

/-- What one poll iteration of `wait_for_login_completion` observes:
login detected (URL or nav-element check true), not detected, or an
exception raised while inspecting the DOM. -/
inductive PollObs where
  | detected : PollObs
  | notDetected : PollObs
  | raises : PollObs
  deriving DecidableEq

/-- `max_attempts = 10` hardcoded in `wait_for_login_completion`. -/
def loginMaxAttempts : Nat := 10

/-- The `for attempt in range(max_attempts)` loop of
`wait_for_login_completion`: return `True` on detection; on a
non-detection or an exception (caught by `except Exception`), sleep and
keep polling; on exhaustion, warn and return `True` anyway.  The second
component counts the poll iterations performed. -/
def waitAux (obs : Nat → PollObs) : Nat → Nat → Bool × Nat
  | 0, used => (true, used)
  | n + 1, used =>
    match obs used with
    | PollObs.detected => (true, used + 1)
    | _ => waitAux obs n (used + 1)

/-- `AmazonRufusScraper.wait_for_login_completion`, driven by the
observation each poll iteration makes. -/
def wait_for_login_completion (obs : Nat → PollObs) : Bool × Nat :=
  waitAux obs loginMaxAttempts 0

/-- Outcome of one `find_element` call in the customers-say summary loop
of `extract_customer_insights`: an element carrying its text, or any
exception (bare `except: continue`). -/
inductive Query where
  | element : String → Query
  | raises : Query
  deriving DecidableEq

/-- The summary-selector loop of `extract_customer_insights`: the first
selector whose element has non-empty stripped text wins; exceptions fall
through to the next selector; exhaustion leaves the empty-string
sentinel from the initialisation of `insights`. -/
def extract_summary : List Query → String
  | [] => ""
  | Query.raises :: rest => extract_summary rest
  | Query.element t :: rest =>
    if pyStrip t ≠ "" then pyStrip t else extract_summary rest

/-- A summary-selector attempt that does not win: either its
`find_element` raised, or the element's stripped text is empty. -/
def summaryFails : Query → Bool
  | Query.raises => true
  | Query.element t => pyStrip t = ""

/-- The per-element filter of the primary Rufus-question loops:
`text = (textContent or value or text).strip()` must be non-empty and
contain a question mark. -/
def isQ (t : String) : Bool :=
  pyStrip t ≠ "" && pyContains (pyStrip t) "?"

/-- One entry of the `questions` list built by
`extract_rufus_questions`. -/
structure Question where
  question_number : Nat
  question_text : String
  selector_used : String
  deriving DecidableEq

/-- One step of the inner `for i, el in enumerate(elements, 1)` loop:
the element at position `p.1` is appended when it passes `isQ`, with its
stripped text and its enumeration position as `question_number`. -/
def questionOfPair (name : String) (p : Nat × String) : Option Question :=
  if isQ p.2 then some ⟨p.1, pyStrip p.2, name⟩ else none

/-- The inner `for i, el in enumerate(elements, 1)` loop over one
selector's matches: every element is numbered by its position among ALL
matched elements, and only those passing `isQ` are appended (with the
stripped text). -/
def questionsFromElements (name : String) (texts : List String) : List Question :=
  (List.enumFrom 1 texts).filterMap (questionOfPair name)

/-- The outer selector loop of `extract_rufus_questions`: each iteration
first waits for the pill carousel (`TimeoutException` when absent is
caught and skips to the next selector), then collects that selector's
questions, breaking once the accumulated list is non-empty. -/
def primaryQuestions (carousel : Bool) : List (String × List String) → List Question
  | [] => []
  | (name, texts) :: rest =>
    if carousel = false then primaryQuestions false rest
    else
      let qs := questionsFromElements name texts
      if qs.isEmpty then primaryQuestions carousel rest else qs

/-- The heuristic filter of the fallback pass:
`text = (value or textContent or text)` must be non-empty, contain a
question mark, have a stripped length strictly between 10 and 200, and
contain none of the lowercase skip phrases. -/
def fallbackOK (t : String) : Bool :=
  t ≠ "" && pyContains t "?" &&
  decide (10 < (pyStrip t).length) && decide ((pyStrip t).length < 200) &&
  !(["sign in", "add to cart", "buy now", "search"].any fun p =>
      pyContains (pyLower t) p)

/-- One step of the fallback loop: a qualifying element is appended with
`question_number = len(questions) + 1`. -/
def fallbackStep (acc : List Question) (t : String) : List Question :=
  if fallbackOK t then acc ++ [⟨acc.length + 1, pyStrip t, "fallback"⟩] else acc

/-- The `if not questions:` fallback pass of `extract_rufus_questions`
over every generic button-like element on the page. -/
def fallbackQuestions (texts : List String) : List Question :=
  texts.foldl fallbackStep []

/-- `AmazonRufusScraper.extract_rufus_questions`: primary selector loop,
then the fallback pass when no primary selector produced a question.
`carousel` says whether the pill-carousel container renders (the
per-selector presence wait times out otherwise); `sels` gives, per
primary selector, the texts of its matched elements; `allEls` the texts
of the generic elements scanned by the fallback. -/
def extract_rufus_questions (carousel : Bool) (sels : List (String × List String))
    (allEls : List String) : List Question :=
  let qs := primaryQuestions carousel sels
  if qs.isEmpty then fallbackQuestions allEls else qs

/-- One element matched by an aspect selector in
`extract_customer_insights`: its text, the `fill` attribute of its
`svg path` child (`none` when the probe raises or the attribute is
missing — both fall back to positive), and its `aria-label`
attribute. -/
structure AspectEl where
  text : String
  svgFill : Option String
  ariaLabel : Option String
  deriving DecidableEq

/-- One entry of the `aspects` list. -/
structure Aspect where
  aspect_number : Nat
  aspect_text : String
  sentiment : String
  aria_label : String
  selector_used : String
  deriving DecidableEq

/-- The inner `for i, element in enumerate(aspect_elements, 1)` loop:
keep elements whose stripped text is non-empty and longer than two
characters; sentiment defaults to positive unless the svg fill attribute
contains the `#DE7921` marker. -/
def aspectsFromElements (name : String) (els : List AspectEl) : List Aspect :=
  (List.enumFrom 1 els).filterMap fun p =>
    let t := pyStrip p.2.text
    if t ≠ "" && decide (t.length > 2) then
      some ⟨p.1, t,
        (match p.2.svgFill with
         | some f => if pyContains f "#DE7921" then "negative" else "positive"
         | none => "positive"),
        p.2.ariaLabel.getD "", name⟩
    else none

/-- The aspect-selector loop of `extract_customer_insights`: first
selector contributing a non-empty aspect list wins. -/
def aspectLoop : List (String × List AspectEl) → List Aspect
  | [] => []
  | (name, els) :: rest =>
    let asp := aspectsFromElements name els
    if asp.isEmpty then aspectLoop rest else asp

/-- The `insights` dictionary returned by
`extract_customer_insights`. -/
structure Insights where
  customers_say_summary : String
  aspects : List Aspect
  deriving DecidableEq

/-- `AmazonRufusScraper.extract_customer_insights`, driven by the query
results of the three summary selectors and the matches of the aspect
selectors. -/
def extract_customer_insights (summaries : List Query)
    (aspectSels : List (String × List AspectEl)) : Insights :=
  ⟨extract_summary summaries, aspectLoop aspectSels⟩

/-- Everything of a product page that `scrape_product_data` reads. -/
structure ProductPage where
  carousel : Bool
  questionSels : List (String × List String)
  allButtons : List String
  summaryResults : List Query
  aspectSels : List (String × List AspectEl)
  deriving DecidableEq

/-- The `results` dictionary of `scrape_product_data`; `customer_insights`
is `none` while it still holds the initial empty dict. -/
structure ScrapeRun where
  rufus_questions : List Question
  customer_insights : Option Insights
  data_sources_found : List String
  success : Bool
  deriving DecidableEq

/-- The initial `results` value of `scrape_product_data`. -/
def emptyRun : ScrapeRun := ⟨[], none, [], false⟩

/-- `AmazonRufusScraper.scrape_product_data`: a failed driver start or
navigation returns the initial results unchanged; otherwise both
extractors run, each non-empty source is recorded in
`data_sources_found`, and `success` is set exactly when that list is
non-empty. -/
def scrape_product_data (startOk navOk : Bool) (page : ProductPage) : ScrapeRun :=
  if startOk = false then emptyRun
  else if navOk = false then emptyRun
  else
    let questions := extract_rufus_questions page.carousel page.questionSels page.allButtons
    let insights := extract_customer_insights page.summaryResults page.aspectSels
    let hasQ := !questions.isEmpty
    let hasI := decide (insights.customers_say_summary ≠ "") || !insights.aspects.isEmpty
    let ds := (if hasQ then ["rufus_questions"] else []) ++
              (if hasI then ["customer_insights"] else [])
    { rufus_questions := if hasQ then questions else []
      customer_insights := if hasI then some insights else none
      data_sources_found := ds
      success := !ds.isEmpty }

/-- Scenario B page: no Q&A pill selector matches anything, the fallback
pass sees nothing, but the customers-say summary is populated. -/
def scenarioBPage : ProductPage :=
  ⟨true,
   [("pill-carousel a-button-text", []), ("pill-carousel button", [])],
   [],
   [Query.element "Customers love the quality "],
   []⟩

/-!
Helper lemmas.
-/

/-- Characterisation of a successful `extract_review_data`: the record is
produced exactly when every per-field block succeeds, and each record
field equals its block's value. -/
theorem extract_some_iff {el : ReviewElement} {r : ReviewRecord} :
    extract_review_data el = some r ↔
      textField el.title "N/A" = some r.title ∧
      ratingField el.ratingClass = some r.rating ∧
      textField el.body "N/A" = some r.text ∧
      textField el.author "N/A" = some r.author ∧
      textField el.date "N/A" = some r.date ∧
      verifiedField el.verified = some r.verified_purchase ∧
      helpfulField el.helpful = some r.helpful_votes := by
  obtain ⟨t, ra, te, au, d, v, h⟩ := r
  cases h1 : textField el.title "N/A" <;>
  cases h2 : ratingField el.ratingClass <;>
  cases h3 : textField el.body "N/A" <;>
  cases h4 : textField el.author "N/A" <;>
  cases h5 : textField el.date "N/A" <;>
  cases h6 : verifiedField el.verified <;>
  cases h7 : helpfulField el.helpful <;>
    simp_all [extract_review_data]

/-- A non-`NoSuchElement` exception in any of the seven field blocks
makes `extract_review_data` return `None`. -/
theorem extract_err_none {el : ReviewElement}
    (h : el.title = Lookup.err ∨ el.ratingClass = Lookup.err ∨ el.body = Lookup.err ∨
      el.author = Lookup.err ∨ el.date = Lookup.err ∨ el.verified = Lookup.err ∨
      el.helpful = Lookup.err) :
    extract_review_data el = none := by
  cases hx : extract_review_data el with
  | none => rfl
  | some r =>
    obtain ⟨h1, h2, h3, h4, h5, h6, h7⟩ := extract_some_iff.mp hx
    rcases h with h | h | h | h | h | h | h
    · rw [h] at h1; exact absurd h1 (by simp [textField])
    · rw [h] at h2; exact absurd h2 (by simp [ratingField])
    · rw [h] at h3; exact absurd h3 (by simp [textField])
    · rw [h] at h4; exact absurd h4 (by simp [textField])
    · rw [h] at h5; exact absurd h5 (by simp [textField])
    · rw [h] at h6; exact absurd h6 (by simp [verifiedField])
    · rw [h] at h7; exact absurd h7 (by simp [helpfulField])

/-!
Claim theorems about `scraping_final.py`.
-/

/-- Claim C4: per-record error isolation.  A record whose extraction
yields `None` (any exception having been caught) is skipped, and the
records harvested from the other containers of the same page — and their
count — are unchanged. -/
theorem record_error_isolation (xs ys : List ReviewElement) (bad : ReviewElement)
    (h : extract_review_data bad = none) :
    harvestPage (xs ++ bad :: ys) = harvestPage xs ++ harvestPage ys ∧
    (harvestPage (xs ++ bad :: ys)).length = (harvestPage (xs ++ ys)).length := by
  constructor
  · simp [harvestPage, List.filterMap_append, List.filterMap_cons, h]
  · simp [harvestPage, List.filterMap_append, List.filterMap_cons, h]

/-- Witness for claim C4 at a concrete page: a container whose body
lookup raises is dropped without affecting its neighbours. -/
theorem record_error_isolation_witness :
    harvestPage ([goodEl] ++ badEl :: [goodEl]) = harvestPage [goodEl] ++ harvestPage [goodEl] ∧
    (harvestPage ([goodEl] ++ badEl :: [goodEl])).length =
      (harvestPage ([goodEl] ++ [goodEl])).length :=
  record_error_isolation [goodEl] [goodEl] badEl (by decide)

/-- Claim C6 counterexample: with a failed session start, `scrape_reviews`
does not return a value at all — `start_driver` is invoked before the
`try` block and re-raises, so the exception propagates to the caller
instead of a zero-record non-success return. -/
theorem session_start_failure_cex :
    (scrape_reviews_full false demoSite5 2).1 = RunResult.raised := by decide

/-- Claim C6 amended: if the browser session fails to start,
`scrape_reviews` aborts immediately by propagating the session-start
exception to the caller; no navigation is attempted and no records (no
partial data) are produced. -/
theorem session_start_failure_amended (site : List Page) (N : Nat) :
    scrape_reviews_full false site N = (RunResult.raised, false) := rfl

/-- Claim C8 counterexample: a star-rating element whose class contains
`a-star-` followed by a non-digit token produces that token as the
rating — neither a digit parsed from an `a-star-N` token nor the "N/A"
sentinel, contradicting the claim's dichotomy. -/
theorem rating_star_class_cex :
    (harvestPage [elStarSmall]).map ReviewRecord.rating = ["small"] := by decide

/-- Claim C8 amended: the rating is the first whitespace-delimited token
after the first occurrence of the substring `a-star-` in the star-rating
element's class (for the standard classes `a-star-N` this is the digit
`N`); if the element is missing or the class contains no `a-star-`, the
rating is the "N/A" sentinel and the record is still produced; if
`a-star-` occurs with no token after it, extraction of that record
raises internally and the record is dropped.  A page with containers
rated 5, 4 and missing yields three records with ratings
["5", "4", "N/A"] and no exception. -/
theorem rating_star_class :
    (harvestPage [elStar5, elStar4, elNoRating]).map ReviewRecord.rating = ["5", "4", "N/A"] ∧
    (harvestPage [elStar5, elStar4, elNoRating]).length = 3 ∧
    ratingField Lookup.noSuch = some "N/A" ∧
    (∀ c : String, pyContains c "a-star-" = false →
      ratingField (Lookup.found c) = some "N/A") ∧
    ratingField (Lookup.found "a-icon-star-mini a-star-small") = some "small" ∧
    extract_review_data elStarDash = none := by
  refine ⟨by decide, by decide, by decide, fun c hc => ?_, by decide, by decide⟩
  simp [ratingField, parseRating, hc]

/-- Witness for claim C8 at a concrete class string without `a-star-`. -/
theorem rating_star_class_witness :
    ratingField (Lookup.found "review-stars large") = some "N/A" :=
  rating_star_class.2.2.2.1 "review-stars large" (by decide)

/-- Claim C10: the per-field sentinel substitution happens only on a
`NoSuchElementException`; an `err` outcome in any field block escapes the
per-field handler and makes the whole record `None`, and the harvesting
loop then drops that record entirely, contributing zero output rows;
every record that is produced carries the sentinel for exactly the
`NoSuchElement` fields. -/
theorem sentinel_only_on_nosuch :
    (∀ el : ReviewElement,
        (el.title = Lookup.err ∨ el.ratingClass = Lookup.err ∨ el.body = Lookup.err ∨
         el.author = Lookup.err ∨ el.date = Lookup.err ∨ el.verified = Lookup.err ∨
         el.helpful = Lookup.err) →
        extract_review_data el = none) ∧
    (∀ (el : ReviewElement) (r : ReviewRecord), extract_review_data el = some r →
        (el.title = Lookup.noSuch → r.title = "N/A") ∧
        (el.ratingClass = Lookup.noSuch → r.rating = "N/A") ∧
        (el.body = Lookup.noSuch → r.text = "N/A") ∧
        (el.author = Lookup.noSuch → r.author = "N/A") ∧
        (el.date = Lookup.noSuch → r.date = "N/A") ∧
        (el.verified = Lookup.noSuch → r.verified_purchase = "No") ∧
        (el.helpful = Lookup.noSuch → r.helpful_votes = "0")) ∧
    harvestPage [goodEl, oneErrEl, goodEl] = harvestPage [goodEl, goodEl] := by
  refine ⟨fun el h => extract_err_none h, fun el r hx => ?_, by decide⟩
  obtain ⟨h1, h2, h3, h4, h5, h6, h7⟩ := extract_some_iff.mp hx
  refine ⟨fun hf => ?_, fun hf => ?_, fun hf => ?_, fun hf => ?_, fun hf => ?_,
    fun hf => ?_, fun hf => ?_⟩
  · rw [hf] at h1; simpa [textField] using h1.symm
  · rw [hf] at h2; simpa [ratingField] using h2.symm
  · rw [hf] at h3; simpa [textField] using h3.symm
  · rw [hf] at h4; simpa [textField] using h4.symm
  · rw [hf] at h5; simpa [textField] using h5.symm
  · rw [hf] at h6; simpa [verifiedField] using h6.symm
  · rw [hf] at h7; simpa [helpfulField] using h7.symm

/-- Witness for claim C10: a container with a single `err` field (the
author lookup) contributes no record. -/
theorem sentinel_only_on_nosuch_witness :
    extract_review_data oneErrEl = none :=
  sentinel_only_on_nosuch.1 oneErrEl (Or.inr (Or.inr (Or.inr (Or.inl rfl))))

/-- The pagination loop never harvests more pages than its remaining
iteration budget allows. -/
theorem scrapeAux_harvests_le (site : List Page) :
    ∀ (r idx : Nat) (acc : List ReviewRecord) (done : Nat),
      (scrapeAux site idx r acc done).harvests ≤ done + r := by
  intro r
  induction r with
  | zero => intro idx acc done; simp [scrapeAux]
  | succ n ih =>
    intro idx acc done
    cases hE : (pageAt site idx).isEmpty with
    | true => simp [scrapeAux, hE]
    | false =>
      by_cases h0 : n = 0
      · subst h0; simp [scrapeAux, hE]
      · cases hN : nextAt site idx with
        | enabled =>
          have h1 := ih (idx + 1) (acc ++ harvestPage (pageAt site idx)) (done + 1)
          have h2 : scrapeAux site idx (n + 1) acc done =
              scrapeAux site (idx + 1) n (acc ++ harvestPage (pageAt site idx)) (done + 1) := by
            simp [scrapeAux, hE, h0, hN]
          rw [h2]; omega
        | clickRaises =>
          have h2 : scrapeAux site idx (n + 1) acc done =
              ⟨acc ++ harvestPage (pageAt site idx), Stop.error, done + 1⟩ := by
            simp [scrapeAux, hE, h0, hN]
          rw [h2]; show done + 1 ≤ done + (n + 1); omega
        | disabled =>
          have h2 : scrapeAux site idx (n + 1) acc done =
              ⟨acc ++ harvestPage (pageAt site idx), Stop.noNext, done + 1⟩ := by
            simp [scrapeAux, hE, h0, hN]
          rw [h2]; show done + 1 ≤ done + (n + 1); omega
        | absent =>
          have h2 : scrapeAux site idx (n + 1) acc done =
              ⟨acc ++ harvestPage (pageAt site idx), Stop.noNext, done + 1⟩ := by
            simp [scrapeAux, hE, h0, hN]
          rw [h2]; show done + 1 ≤ done + (n + 1); omega

/-- `harvestRange` over zero pages is empty. -/
theorem harvestRange_zero (site : List Page) (idx : Nat) :
    harvestRange site idx 0 = [] := by
  simp [harvestRange]

/-- Peeling the first page off a `harvestRange`. -/
theorem harvestRange_succ_left (site : List Page) (idx m : Nat) :
    harvestRange site idx (m + 1) =
      harvestPage (pageAt site idx) ++ harvestRange site (idx + 1) m := by
  unfold harvestRange
  rw [List.range_succ_eq_map, List.map_cons, List.flatten_cons, List.map_map, Nat.add_zero]
  have h : ((fun j => harvestPage (pageAt site (idx + j))) ∘ Nat.succ) =
      fun j => harvestPage (pageAt site (idx + 1 + j)) := by
    funext j
    have hj : idx + Nat.succ j = idx + 1 + j := by omega
    simp [Function.comp, hj]
  rw [h]

/-- Peeling the last page off a `harvestRange`. -/
theorem harvestRange_succ_right (site : List Page) (idx m : Nat) :
    harvestRange site idx (m + 1) =
      harvestRange site idx m ++ harvestPage (pageAt site (idx + m)) := by
  simp [harvestRange, List.range_succ]

/-- Advancing the pagination loop through `m` consecutive non-empty pages
whose next controls are all enabled, while more than `m` iterations
remain: the loop reaches page `idx + m` with all `m` harvests
accumulated. -/
theorem scrapeAux_advance (site : List Page) :
    ∀ (m idx r : Nat) (acc : List ReviewRecord) (done : Nat),
      (∀ j, j < m → (pageAt site (idx + j)).isEmpty = false) →
      (∀ j, j < m → nextAt site (idx + j) = NextCtl.enabled) →
      m < r →
      scrapeAux site idx r acc done =
        scrapeAux site (idx + m) (r - m) (acc ++ harvestRange site idx m) (done + m) := by
  intro m
  induction m with
  | zero =>
    intro idx r acc done _ _ _
    simp [harvestRange_zero]
  | succ n ih =>
    intro idx r acc done hp hn hr
    obtain ⟨r', rfl⟩ : ∃ r', r = r' + 1 := ⟨r - 1, by omega⟩
    have hp0 : (pageAt site idx).isEmpty = false := by simpa using hp 0 (by omega)
    have hn0 : nextAt site idx = NextCtl.enabled := by simpa using hn 0 (by omega)
    have hr' : r' ≠ 0 := by omega
    have step : scrapeAux site idx (r' + 1) acc done =
        scrapeAux site (idx + 1) r' (acc ++ harvestPage (pageAt site idx)) (done + 1) := by
      simp [scrapeAux, hp0, hr', hn0]
    rw [step]
    have ihx := ih (idx + 1) r' (acc ++ harvestPage (pageAt site idx)) (done + 1)
      (fun j hj => by
        have := hp (j + 1) (by omega)
        simpa [Nat.add_assoc, Nat.add_comm 1 j] using this)
      (fun j hj => by
        have := hn (j + 1) (by omega)
        simpa [Nat.add_assoc, Nat.add_comm 1 j] using this)
      (by omega)
    rw [ihx, harvestRange_succ_left, List.append_assoc]
    have e1 : idx + 1 + n = idx + (n + 1) := by omega
    have e2 : r' - n = r' + 1 - (n + 1) := by omega
    have e3 : done + 1 + n = done + (n + 1) := by omega
    rw [e1, e2, e3]

/-- Claim C2: pagination is capped.  The loop harvests at most
`maxPages` pages on any site; against the five-page mock site with ten
well-formed reviews per page and `maxPages = 2`, exactly 20 records are
returned and the run ends in the capped state; and the run is bit-for-bit
identical when page 2's next control is replaced by one whose click would
raise — so the next control is never consulted after the final permitted
page. -/
theorem scrape_reviews_page_cap :
    (∀ (site : List Page) (N : Nat), (scrape_reviews site N).harvests ≤ N) ∧
    (scrape_reviews demoSite5 2).records.length = 20 ∧
    (scrape_reviews demoSite5 2).stop = Stop.capped ∧
    scrape_reviews demoSite5 2 = scrape_reviews demoSite5Tampered 2 := by
  refine ⟨fun site N => ?_, by decide, by decide, by decide⟩
  simpa using scrapeAux_harvests_le site N 0 [] 0

/-- Claim C3: partial progress is always preserved.  After harvesting
pages `1..k` (indices `0..k-1`), each non-empty, with enabled next
controls between them: if page `k`'s next control is absent or disabled
the run returns exactly the concatenated harvests of pages `1..k` and
stops; if its click raises, the exception handler still returns the same
concatenated harvests; and if the next click succeeds but the
content-presence wait times out on page `k+1`, the same records are
returned with the timeout stop.  In no case is anything discarded. -/
theorem scrape_partial_progress (site : List Page) (N k : Nat)
    (hk1 : 1 ≤ k) (hk2 : k < N)
    (hp : ∀ j, j < k → (pageAt site j).isEmpty = false)
    (hn : ∀ j, j < k - 1 → nextAt site j = NextCtl.enabled) :
    ((nextAt site (k - 1) = NextCtl.absent ∨ nextAt site (k - 1) = NextCtl.disabled) →
        scrape_reviews site N = ⟨harvestRange site 0 k, Stop.noNext, k⟩) ∧
    (nextAt site (k - 1) = NextCtl.clickRaises →
        scrape_reviews site N = ⟨harvestRange site 0 k, Stop.error, k⟩) ∧
    ((∀ j, j < k → nextAt site j = NextCtl.enabled) → (pageAt site k).isEmpty = true →
        scrape_reviews site N = ⟨harvestRange site 0 k, Stop.noReviews, k⟩) := by
  obtain ⟨m, rfl⟩ : ∃ m, k = m + 1 := ⟨k - 1, by omega⟩
  have adv : scrape_reviews site N =
      scrapeAux site m (N - m) (harvestRange site 0 (m + 1 - 1)) m := by
    have := scrapeAux_advance site m 0 N [] 0
      (fun j hj => by simpa using hp j (by omega))
      (fun j hj => by simpa using hn j (by simpa using hj))
      (by omega)
    simpa using this
  have hpm : (pageAt site m).isEmpty = false := hp m (by omega)
  obtain ⟨r', hr'⟩ : ∃ r', N - m = r' + 1 := ⟨N - m - 1, by omega⟩
  have hr0 : r' ≠ 0 := by omega
  have hacc : harvestRange site 0 m ++ harvestPage (pageAt site m) =
      harvestRange site 0 (m + 1) := by
    simpa using (harvestRange_succ_right site 0 m).symm
  refine ⟨fun hl => ?_, fun hl => ?_, fun hall hto => ?_⟩
  · simp only [Nat.add_sub_cancel] at adv hl ⊢
    rw [adv, hr']
    rcases hl with hl | hl <;>
      simp [scrapeAux, hpm, hr0, hl, hacc]
  · simp only [Nat.add_sub_cancel] at adv hl ⊢
    rw [adv, hr']
    simp [scrapeAux, hpm, hr0, hl, hacc]
  · have adv2 : scrape_reviews site N =
        scrapeAux site (m + 1) (N - (m + 1)) (harvestRange site 0 (m + 1)) (m + 1) := by
      have := scrapeAux_advance site (m + 1) 0 N [] 0
        (fun j hj => by simpa using hp j hj)
        (fun j hj => by simpa using hall j hj)
        (by omega)
      simpa using this
    obtain ⟨r'', hr''⟩ : ∃ r'', N - (m + 1) = r'' + 1 := ⟨N - (m + 1) - 1, by omega⟩
    rw [adv2, hr'']
    simp [scrapeAux, hto]

/-- Witness for claim C3 on a concrete three-page site whose second page
has a disabled next control, scraped with a five-page cap: both harvested
pages' records are returned. -/
theorem scrape_partial_progress_witness :
    scrape_reviews exhaustSite 5 = ⟨harvestRange exhaustSite 0 2, Stop.noNext, 2⟩ :=
  (scrape_partial_progress exhaustSite 5 2 (by decide) (by decide)
      (by decide) (by decide)).1 (Or.inr (by decide))

/-!
Helper lemmas about `product_details.py`.
-/

/-- The login poll never performs more iterations than its remaining
attempt budget. -/
theorem waitAux_snd_le (obs : Nat → PollObs) :
    ∀ (n used : Nat), (waitAux obs n used).2 ≤ used + n := by
  intro n
  induction n with
  | zero => intro used; simp [waitAux]
  | succ k ih =>
    intro used
    cases h : obs used with
    | detected =>
      have e : waitAux obs (k + 1) used = (true, used + 1) := by simp [waitAux, h]
      rw [e]; show used + 1 ≤ used + (k + 1); omega
    | notDetected =>
      have e : waitAux obs (k + 1) used = waitAux obs k (used + 1) := by simp [waitAux, h]
      rw [e]; have := ih (used + 1); omega
    | raises =>
      have e : waitAux obs (k + 1) used = waitAux obs k (used + 1) := by simp [waitAux, h]
      rw [e]; have := ih (used + 1); omega

/-- The login poll always reports success. -/
theorem waitAux_fst_true (obs : Nat → PollObs) :
    ∀ (n used : Nat), (waitAux obs n used).1 = true := by
  intro n
  induction n with
  | zero => intro used; simp [waitAux]
  | succ k ih =>
    intro used
    cases h : obs used with
    | detected => simp [waitAux, h]
    | notDetected =>
      have e : waitAux obs (k + 1) used = waitAux obs k (used + 1) := by simp [waitAux, h]
      rw [e]; exact ih (used + 1)
    | raises =>
      have e : waitAux obs (k + 1) used = waitAux obs k (used + 1) := by simp [waitAux, h]
      rw [e]; exact ih (used + 1)

/-- A poll iteration that raises behaves exactly like one that observes
"not logged in yet". -/
theorem waitAux_raises_eq (obs obs2 : Nat → PollObs)
    (h : ∀ k, obs2 k = match obs k with
      | PollObs.raises => PollObs.notDetected
      | x => x) :
    ∀ (n used : Nat), waitAux obs n used = waitAux obs2 n used := by
  intro n
  induction n with
  | zero => intro used; rfl
  | succ k ih =>
    intro used
    have h2 := h used
    cases ho : obs used with
    | detected =>
      rw [ho] at h2
      simp [waitAux, ho, h2]
    | notDetected =>
      rw [ho] at h2
      have e1 : waitAux obs (k + 1) used = waitAux obs k (used + 1) := by simp [waitAux, ho]
      have e2 : waitAux obs2 (k + 1) used = waitAux obs2 k (used + 1) := by simp [waitAux, h2]
      rw [e1, e2]; exact ih (used + 1)
    | raises =>
      rw [ho] at h2
      have e1 : waitAux obs (k + 1) used = waitAux obs k (used + 1) := by simp [waitAux, ho]
      have e2 : waitAux obs2 (k + 1) used = waitAux obs2 k (used + 1) := by simp [waitAux, h2]
      rw [e1, e2]; exact ih (used + 1)

/-- A selector none of whose elements qualifies contributes no
questions, at any enumeration start. -/
theorem qfeAux_eq_nil (name : String) :
    ∀ (texts : List String) (k : Nat), (∀ t ∈ texts, isQ t = false) →
      (List.enumFrom k texts).filterMap (questionOfPair name) = [] := by
  intro texts
  induction texts with
  | nil => intro k _; rfl
  | cons t ts ih =>
    intro k h
    have ht : isQ t = false := h t (by simp)
    simp [List.enumFrom, List.filterMap_cons, questionOfPair, ht,
      ih (k + 1) (fun u hu => h u (by simp [hu]))]

/-- A selector with at least one qualifying element contributes at least
one question, at any enumeration start. -/
theorem qfeAux_ne_nil (name : String) :
    ∀ (texts : List String) (k : Nat), (∃ t ∈ texts, isQ t = true) →
      (List.enumFrom k texts).filterMap (questionOfPair name) ≠ [] := by
  intro texts
  induction texts with
  | nil => intro k h; simp at h
  | cons t ts ih =>
    intro k h
    cases ht : isQ t with
    | true => simp [List.enumFrom, List.filterMap_cons, questionOfPair, ht]
    | false =>
      have hts : ∃ u ∈ ts, isQ u = true := by
        rcases h with ⟨u, hu, hq⟩
        rcases List.mem_cons.mp hu with rfl | hu
        · exact absurd hq (by simp [ht])
        · exact ⟨u, hu, hq⟩
      simpa [List.enumFrom, List.filterMap_cons, questionOfPair, ht] using ih (k + 1) hts

/-- The question numbers contributed by one selector form a sublist of
the element positions `k, k+1, ...`. -/
theorem qfeAux_numbers_sublist (name : String) :
    ∀ (texts : List String) (k : Nat),
      (((List.enumFrom k texts).filterMap (questionOfPair name)).map
        Question.question_number).Sublist (List.range' k texts.length) := by
  intro texts
  induction texts with
  | nil => intro k; simp
  | cons t ts ih =>
    intro k
    have e : List.range' k (t :: ts).length = k :: List.range' (k + 1) ts.length := by
      rw [List.length_cons, List.range'_succ]
    cases ht : isQ t with
    | true =>
      rw [e]
      simpa [List.enumFrom, List.filterMap_cons, questionOfPair, ht] using
        List.Sublist.cons₂ k (ih (k + 1))
    | false =>
      rw [e]
      simpa [List.enumFrom, List.filterMap_cons, questionOfPair, ht] using
        List.Sublist.cons k (ih (k + 1))

/-- The question texts contributed by one selector are the stripped
texts of its qualifying elements, in page order. -/
theorem qfeAux_texts (name : String) :
    ∀ (texts : List String) (k : Nat),
      ((List.enumFrom k texts).filterMap (questionOfPair name)).map
          Question.question_text =
        (texts.filter isQ).map pyStrip := by
  intro texts
  induction texts with
  | nil => intro k; rfl
  | cons t ts ih =>
    intro k
    cases ht : isQ t with
    | true => simp [List.enumFrom, List.filterMap_cons, questionOfPair, ht,
        List.filter_cons, ih (k + 1)]
    | false => simp [List.enumFrom, List.filterMap_cons, questionOfPair, ht,
        List.filter_cons, ih (k + 1)]

/-- The fallback loop appends contiguous numbers continuing from the
accumulator's length. -/
theorem fallbackAux_numbers :
    ∀ (texts : List String) (acc : List Question),
      (texts.foldl fallbackStep acc).map Question.question_number =
        acc.map Question.question_number ++
          List.range' (acc.length + 1) (texts.filter fallbackOK).length := by
  intro texts
  induction texts with
  | nil => intro acc; simp
  | cons t ts ih =>
    intro acc
    cases hok : fallbackOK t with
    | false => simp [fallbackStep, hok, List.filter_cons, ih acc]
    | true =>
      have e := ih (acc ++ [⟨acc.length + 1, pyStrip t, "fallback"⟩])
      simp only [List.foldl_cons, fallbackStep, hok, if_true, List.filter_cons] at e ⊢
      rw [e]
      simp [List.range'_succ]

/-- Fallback questions are numbered contiguously from 1. -/
theorem fallback_numbers (texts : List String) :
    (fallbackQuestions texts).map Question.question_number =
      List.range' 1 (fallbackQuestions texts).length := by
  have h := fallbackAux_numbers texts []
  have hlen : (fallbackQuestions texts).length = (texts.filter fallbackOK).length := by
    have h2 := congrArg List.length h
    simpa [fallbackQuestions] using h2
  rw [hlen]
  simpa [fallbackQuestions] using h

/-- With the carousel absent, every primary selector iteration raises a
timeout and is skipped. -/
theorem primaryQuestions_carousel_absent :
    ∀ sels : List (String × List String), primaryQuestions false sels = [] := by
  intro sels
  induction sels with
  | nil => rfl
  | cons s rest ih => simp [primaryQuestions, ih]

/-- If no primary selector has a qualifying element, the primary loop
produces nothing. -/
theorem primaryQuestions_all_fail :
    ∀ sels : List (String × List String),
      (∀ p ∈ sels, ∀ t ∈ p.2, isQ t = false) →
      primaryQuestions true sels = [] := by
  intro sels
  induction sels with
  | nil => intro _; rfl
  | cons s rest ih =>
    intro h
    obtain ⟨name, texts⟩ := s
    have hnil : questionsFromElements name texts = [] :=
      qfeAux_eq_nil name texts 1 (fun t ht => h (name, texts) (by simp) t ht)
    have hrest := ih (fun p hp => h p (by simp [hp]))
    simp [primaryQuestions, hnil, hrest]

/-- The first primary selector with a qualifying element wins, and the
result is exactly that selector's question list. -/
theorem primaryQuestions_first_win :
    ∀ (pre : List (String × List String)) (name : String) (texts : List String)
      (post : List (String × List String)),
      (∀ p ∈ pre, ∀ t ∈ p.2, isQ t = false) →
      (∃ t ∈ texts, isQ t = true) →
      primaryQuestions true (pre ++ (name, texts) :: post) =
        questionsFromElements name texts := by
  intro pre
  induction pre with
  | nil =>
    intro name texts post _ hex
    have hne : questionsFromElements name texts ≠ [] := qfeAux_ne_nil name texts 1 hex
    cases hq : (questionsFromElements name texts).isEmpty with
    | true => exact absurd (List.isEmpty_iff.mp hq) hne
    | false => simp [primaryQuestions, hq]
  | cons s rest ih =>
    intro name texts post h hex
    obtain ⟨n0, t0⟩ := s
    have hnil : questionsFromElements n0 t0 = [] :=
      qfeAux_eq_nil n0 t0 1 (fun t ht => h (n0, t0) (by simp) t ht)
    have step : primaryQuestions true (((n0, t0) :: rest) ++ (name, texts) :: post) =
        primaryQuestions true (rest ++ (name, texts) :: post) := by
      simp [primaryQuestions, hnil]
    rw [step]
    exact ih name texts post (fun p hp => h p (by simp [hp])) hex

/-- When no summary selector wins, the sentinel from initialisation
survives. -/
theorem extract_summary_all_fail :
    ∀ rs : List Query, (∀ q ∈ rs, summaryFails q = true) → extract_summary rs = "" := by
  intro rs
  induction rs with
  | nil => intro _; rfl
  | cons q rest ih =>
    intro h
    cases q with
    | raises => simpa [extract_summary] using ih (fun u hu => h u (by simp [hu]))
    | element t =>
      have ht : pyStrip t = "" := by
        simpa [summaryFails] using h (Query.element t) (by simp)
      simpa [extract_summary, ht] using ih (fun u hu => h u (by simp [hu]))

/-- The first summary selector that resolves to an element with
non-empty stripped text wins. -/
theorem extract_summary_first_win :
    ∀ (xs : List Query) (t : String) (ys : List Query),
      (∀ q ∈ xs, summaryFails q = true) → pyStrip t ≠ "" →
      extract_summary (xs ++ Query.element t :: ys) = pyStrip t := by
  intro xs
  induction xs with
  | nil => intro t ys _ ht; simp [extract_summary, ht]
  | cons q rest ih =>
    intro t ys h ht
    cases q with
    | raises =>
      simpa [extract_summary] using ih t ys (fun u hu => h u (by simp [hu])) ht
    | element u =>
      have hu : pyStrip u = "" := by
        simpa [summaryFails] using h (Query.element u) (by simp)
      simpa [extract_summary, hu] using ih t ys (fun u hu => h u (by simp [hu])) ht

/-!
Claim theorems about `product_details.py`.
-/

/-- Claim C1 counterexample: the claim predicts that the first Rufus
question strategy resolving to an element with non-empty text wins, so
the result should carry the first selector's text "hello there friends";
the code instead skips that selector (its text has no question mark) and
returns the second selector's question. -/
theorem extractor_first_match_cex :
    ((extract_rufus_questions true
        [("s1", ["hello there friends"]), ("s2", ["Is it good?"])] []).map
      Question.question_text) = ["Is it good?"] := by decide

/-- Claim C1 amended: for the customers-say summary, the extractor tries
selectors in order and returns the stripped text of the first one whose
element has non-empty stripped text, with the empty-string sentinel on
exhaustion; for the Rufus question selectors, the first selector (with
the carousel present) having at least one element whose stripped text is
non-empty AND contains a question mark wins with exactly its question
list, and on exhaustion of all primary selectors (or an absent carousel)
a heuristic fallback pass over generic elements runs instead; strategy
exhaustion is never an error and an empty fallback input yields the
empty list. -/
theorem extractor_first_match :
    (∀ (xs : List Query) (t : String) (ys : List Query),
        (∀ q ∈ xs, summaryFails q = true) → pyStrip t ≠ "" →
        extract_summary (xs ++ Query.element t :: ys) = pyStrip t) ∧
    (∀ rs : List Query, (∀ q ∈ rs, summaryFails q = true) → extract_summary rs = "") ∧
    (∀ (pre : List (String × List String)) (name : String) (texts : List String)
        (post : List (String × List String)),
        (∀ p ∈ pre, ∀ t ∈ p.2, isQ t = false) →
        (∃ t ∈ texts, isQ t = true) →
        extract_rufus_questions true (pre ++ (name, texts) :: post) [] =
          questionsFromElements name texts) ∧
    (∀ (sels : List (String × List String)) (els : List String),
        (∀ p ∈ sels, ∀ t ∈ p.2, isQ t = false) →
        extract_rufus_questions true sels els = fallbackQuestions els) ∧
    (∀ (sels : List (String × List String)) (els : List String),
        extract_rufus_questions false sels els = fallbackQuestions els) ∧
    fallbackQuestions [] = [] := by
  refine ⟨extract_summary_first_win, extract_summary_all_fail,
    fun pre name texts post hpre hex => ?_, fun sels els h => ?_, fun sels els => ?_, rfl⟩
  · have hw := primaryQuestions_first_win pre name texts post hpre hex
    have hne : questionsFromElements name texts ≠ [] := qfeAux_ne_nil name texts 1 hex
    cases hq : (questionsFromElements name texts).isEmpty with
    | true => exact absurd (List.isEmpty_iff.mp hq) hne
    | false => simp [extract_rufus_questions, hw, hq]
  · simp [extract_rufus_questions, primaryQuestions_all_fail sels h]
  · simp [extract_rufus_questions, primaryQuestions_carousel_absent sels]

/-- Witness for claim C1: the second summary selector wins after a
raising selector and an all-whitespace one. -/
theorem extractor_first_match_witness :
    extract_summary ([Query.raises, Query.element "   "] ++
        Query.element " Customers say it is sturdy " :: [Query.element "later"]) =
      pyStrip " Customers say it is sturdy " :=
  extractor_first_match.1 [Query.raises, Query.element "   "]
    " Customers say it is sturdy " [Query.element "later"] (by decide) (by decide)

/-- Claim C5: the run verdict of `scrape_product_data`.  `success` holds
exactly when `data_sources_found` is non-empty, which (for a run whose
driver started and navigation succeeded) happens exactly when the
question extractor или the insights extractor produced non-empty data;
and scenario B — no pill matches but a populated customers-say summary —
returns success with only the customer-insights source and an empty
question list, with no exception. -/
theorem insights_success_verdict :
    (∀ (s n : Bool) (p : ProductPage),
        ((scrape_product_data s n p).success = true ↔
          (scrape_product_data s n p).data_sources_found ≠ [])) ∧
    (∀ p : ProductPage,
        ((scrape_product_data true true p).success = true ↔
          (extract_rufus_questions p.carousel p.questionSels p.allButtons ≠ [] ∨
           (extract_customer_insights p.summaryResults p.aspectSels).customers_say_summary ≠ "" ∨
           (extract_customer_insights p.summaryResults p.aspectSels).aspects ≠ []))) ∧
    scrape_product_data true true scenarioBPage =
      ⟨[], some ⟨"Customers love the quality", []⟩, ["customer_insights"], true⟩ := by
  refine ⟨fun s n p => ?_, fun p => ?_, by decide⟩
  · cases s with
    | false => simp [scrape_product_data, emptyRun]
    | true =>
      cases n with
      | false => simp [scrape_product_data, emptyRun]
      | true =>
        by_cases hq : extract_rufus_questions p.carousel p.questionSels p.allButtons = [] <;>
        by_cases hs : (extract_customer_insights p.summaryResults p.aspectSels).customers_say_summary = "" <;>
        by_cases ha : (extract_customer_insights p.summaryResults p.aspectSels).aspects = [] <;>
          simp [scrape_product_data, hq, hs, ha, List.isEmpty_iff]
  · by_cases hq : extract_rufus_questions p.carousel p.questionSels p.allButtons = [] <;>
    by_cases hs : (extract_customer_insights p.summaryResults p.aspectSels).customers_say_summary = "" <;>
    by_cases ha : (extract_customer_insights p.summaryResults p.aspectSels).aspects = [] <;>
      simp [scrape_product_data, hq, hs, ha, List.isEmpty_iff]

/-- Witness for claim C5 on the scenario B page. -/
theorem insights_success_verdict_witness :
    (scrape_product_data true true scenarioBPage).success = true :=
  (insights_success_verdict.1 true true scenarioBPage).mpr (by decide)

/-- Claim C7: the login wait is bounded and advisory.  It performs at
most `max_attempts = 10` poll iterations; it always returns success,
including on exhaustion; and a run in which some polls raise is
indistinguishable from the run in which those polls merely observe "not
logged in yet" — exceptions are swallowed and treated as "keep
polling". -/
theorem login_wait_bounded_advisory :
    (∀ obs : Nat → PollObs, (wait_for_login_completion obs).2 ≤ loginMaxAttempts) ∧
    (∀ obs : Nat → PollObs, (wait_for_login_completion obs).1 = true) ∧
    (∀ obs obs2 : Nat → PollObs,
        (∀ k, obs2 k = match obs k with
          | PollObs.raises => PollObs.notDetected
          | x => x) →
        wait_for_login_completion obs = wait_for_login_completion obs2) := by
  refine ⟨fun obs => ?_, fun obs => waitAux_fst_true obs loginMaxAttempts 0,
    fun obs obs2 h => waitAux_raises_eq obs obs2 h loginMaxAttempts 0⟩
  simpa using waitAux_snd_le obs loginMaxAttempts 0

/-- Witness for claim C7: an always-raising poll sequence behaves like an
always-undetected one (and, by evaluation, both exhaust their 10
attempts and still return success). -/
theorem login_wait_bounded_advisory_witness :
    wait_for_login_completion (fun _ => PollObs.raises) =
      wait_for_login_completion (fun _ => PollObs.notDetected) :=
  login_wait_bounded_advisory.2.2 (fun _ => PollObs.raises)
    (fun _ => PollObs.notDetected) (fun _ => rfl)

/-- Claim C9 counterexample: with one non-question element before the
question, the single returned question carries `question_number = 2`, not
the contiguous 1-based numbering the claim asserts. -/
theorem question_numbering_cex :
    ((extract_rufus_questions true
        [("s1", ["Nice product overall", "Is it waterproof?"])] []).map
      Question.question_number) = [2] := by decide

/-- Claim C9 amended: within one winning primary selector, questions
appear in page order with strictly increasing `question_number`s that
record each question's 1-based position among ALL elements matched by
that selector (a sublist of `1..n`, so gaps appear exactly where
non-question elements are interleaved), and the texts are the stripped
qualifying texts in order; only the fallback pass numbers its questions
contiguously `1..len`. -/
theorem question_numbering :
    (∀ (name : String) (texts : List String),
        List.Sorted (· < ·)
          ((questionsFromElements name texts).map Question.question_number) ∧
        ((questionsFromElements name texts).map Question.question_number).Sublist
          (List.range' 1 texts.length) ∧
        (questionsFromElements name texts).map Question.question_text =
          (texts.filter isQ).map pyStrip) ∧
    (∀ texts : List String,
        (fallbackQuestions texts).map Question.question_number =
          List.range' 1 (fallbackQuestions texts).length) := by
  refine ⟨fun name texts => ⟨?_, ?_, ?_⟩, fallback_numbers⟩
  · exact (List.pairwise_lt_range' 1 texts.length).sublist
      (qfeAux_numbers_sublist name texts 1)
  · exact qfeAux_numbers_sublist name texts 1
  · exact qfeAux_texts name texts 1

end ScrapeImage
